import Mathlib

/-!
Verification of the mmwave-os LD2410 driver stack.

Shallow embedding of `src/drivers/mmwave/mmwave_ld2410.c` (frame parser,
data-frame decoder, command send, ioctl configuration bracket, read path),
of the test frame constructors in `src/tests/helpers/frame_builder.h`, and
of the Home-Assistant reporter in `src/apps/hactl/hactl_cmd.c`.

Machine integers are modelled as `Nat` with explicit `% 2^w` where the C
width matters; the 64-byte receive buffer is modelled as a function
`Nat → Nat` whose stored values are always reduced `% 256` (uint8_t), and
each store's index is additionally recorded so that buffer-bounds claims
can be stated about the exact indices the C code writes.
-/

namespace Mmwave

/-! ## Protocol constants (mmwave_ld2410.h) -/

def LD2410_DATA_HEADER : Nat := 0xF4F3F2F1
def LD2410_DATA_TAIL   : Nat := 0xF8F7F6F5
def LD2410_CMD_HEADER  : Nat := 0xFDFCFBFA
def LD2410_CMD_TAIL    : Nat := 0x04030201
def LD2410_MAX_FRAME_LEN : Nat := 64
def LD2410_MAX_GATES   : Nat := 9

/-- errno values used by the driver (NuttX negated-errno convention). -/
def E_INVAL : Int := 22
def E_IOERR : Int := 5
def E_AGAIN : Int := 11
def E_NOENT : Int := 2
def E_TIMEDOUT : Int := 110

/-! ## Data model (mmwave_ld2410.h structs) -/

/-- `struct mmwave_data_s`: the latest sensor reading. -/
structure MmwaveData where
  target_state : Nat
  motion_distance : Nat
  motion_energy : Nat
  static_distance : Nat
  static_energy : Nat
  detection_distance : Nat
  timestamp_ms : Nat
deriving Repr, DecidableEq

/-- `struct mmwave_eng_data_s`: reading plus per-gate energies (modelled as
functions from gate index to energy byte). -/
structure EngData where
  basic : MmwaveData
  motion_gate_energy : Nat → Nat
  static_gate_energy : Nat → Nat

/-- Parser states of `mmwave_dev_s.parse_state`. -/
inductive PState where
  | header
  | length
  | payload
  | tail
deriving Repr, DecidableEq

/-- `struct mmwave_dev_s`: the driver state relevant to the claims.
`rxbuf` is the 64-byte receive buffer as a function from index to stored
byte; UART/semaphore handles are abstracted away. -/
structure Dev where
  data : MmwaveData
  eng_data : EngData
  eng_mode : Bool
  data_valid : Bool
  rxbuf : Nat → Nat
  rxpos : Nat
  parse_state : PState
  frame_len : Nat
  frames_ok : Nat
  frames_err : Nat
  cmd_timeouts : Nat

def zeroData : MmwaveData :=
  ⟨0, 0, 0, 0, 0, 0, 0⟩

/-- Device state right after `mmwave_ld2410_register` (kmm_zalloc zeroes
everything; the init code then sets the parser fields explicitly). -/
def initDev : Dev where
  data := zeroData
  eng_data := ⟨zeroData, fun _ => 0, fun _ => 0⟩
  eng_mode := false
  data_valid := false
  rxbuf := fun _ => 0
  rxpos := 0
  parse_state := .header
  frame_len := 0
  frames_ok := 0
  frames_err := 0
  cmd_timeouts := 0

/-! ## Frame parser (mmwave_parse_byte) -/

/-- Store one byte into the buffer (uint8_t truncation). -/
def bufSet (buf : Nat → Nat) (i v : Nat) : Nat → Nat :=
  fun j => if j = i then v % 256 else buf j

/-- Little-endian 32-bit word assembled from four buffer bytes, exactly as
the C code does with shifts and ors (bytes are < 256 so or = add). -/
def word32 (buf : Nat → Nat) (off : Nat) : Nat :=
  buf off + 256 * buf (off + 1) + 65536 * buf (off + 2) +
    16777216 * buf (off + 3)

/-- `memmove(rxbuf, rxbuf + 1, 3)`: slide the 4-byte header window. -/
def slideWindow (buf : Nat → Nat) : Nat → Nat :=
  fun j => if j < 3 then buf (j + 1) else buf j

/-- Result of feeding one byte: updated device, the C return value
(1 = complete frame, 0 otherwise), and the list of `rxbuf` indices this
call stored into (for buffer-bounds claims). -/
structure ParseResult where
  dev : Dev
  ret : Nat
  writes : List Nat

/-- Shallow embedding of `mmwave_parse_byte` (mmwave_ld2410.c:179-302). -/
def mmwave_parse_byte (d : Dev) (byte : Nat) : ParseResult :=
  match d.parse_state with
  | .header =>
    let d1 := if d.rxpos < 4 then
        { d with rxbuf := bufSet d.rxbuf d.rxpos byte, rxpos := d.rxpos + 1 }
      else d
    let w : List Nat := if d.rxpos < 4 then [d.rxpos] else []
    if d1.rxpos = 4 then
      let hdr := word32 d1.rxbuf 0
      if hdr = LD2410_DATA_HEADER ∨ hdr = LD2410_CMD_HEADER then
        ⟨{ d1 with parse_state := .length }, 0, w⟩
      else
        ⟨{ d1 with rxbuf := slideWindow d1.rxbuf, rxpos := 3 }, 0,
          w ++ [0, 1, 2]⟩
    else
      ⟨d1, 0, w⟩
  | .length =>
    let d1 := { d with rxbuf := bufSet d.rxbuf d.rxpos byte,
                       rxpos := d.rxpos + 1 }
    if d1.rxpos = 6 then
      let flen := d1.rxbuf 4 + 256 * d1.rxbuf 5
      if flen > LD2410_MAX_FRAME_LEN - 10 then
        ⟨{ d1 with frame_len := flen, rxpos := 0, parse_state := .header,
                   frames_err := d1.frames_err + 1 }, 0, [d.rxpos]⟩
      else
        ⟨{ d1 with frame_len := flen, parse_state := .payload }, 0,
          [d.rxpos]⟩
    else
      ⟨d1, 0, [d.rxpos]⟩
  | .payload =>
    let d1 := { d with rxbuf := bufSet d.rxbuf d.rxpos byte,
                       rxpos := d.rxpos + 1 }
    if d1.rxpos ≥ 6 + d1.frame_len + 4 then
      let tail_off := 6 + d1.frame_len
      let tl := word32 d1.rxbuf tail_off
      let hdr := word32 d1.rxbuf 0
      if (hdr = LD2410_DATA_HEADER ∧ tl = LD2410_DATA_TAIL) ∨
         (hdr = LD2410_CMD_HEADER ∧ tl = LD2410_CMD_TAIL) then
        ⟨{ d1 with frames_ok := d1.frames_ok + 1, rxpos := 0,
                   parse_state := .header }, 1, [d.rxpos]⟩
      else
        ⟨{ d1 with frames_err := d1.frames_err + 1, rxpos := 0,
                   parse_state := .header }, 0, [d.rxpos]⟩
    else
      ⟨d1, 0, [d.rxpos]⟩
  | .tail =>
    ⟨{ d with rxpos := 0, parse_state := .header }, 0, []⟩

/-- Feed a whole byte list; returns the final device, the number of
`Complete` events (sum of the C return values), and every buffer index
written along the way. -/
def feedBytes (d : Dev) (bs : List Nat) : Dev × Nat × List Nat :=
  match bs with
  | [] => (d, 0, [])
  | b :: rest =>
    let r := mmwave_parse_byte d b
    let t := feedBytes r.dev rest
    (t.1, r.ret + t.2.1, r.writes ++ t.2.2)

/-! ## Data frame decoder (mmwave_process_data_frame) -/

/-- Stub clock: `clock_systime_ticks()` is passed in as `ticks`;
`TICK_PER_SEC` is 1000 (tests/stubs/nuttx/clock.h). -/
def TICK_PER_SEC : Nat := 1000

/-- The gate-copy loop `for (i = 0; i < 9 && i < bound; i++)
dst[i] = src[i]`, as a functional overwrite of the first
`min 9 bound` entries. -/
def copyGates (dst src : Nat → Nat) (bound : Nat) : Nat → Nat :=
  fun i => if i < min LD2410_MAX_GATES bound then src i else dst i

/-- Shallow embedding of `mmwave_process_data_frame`
(mmwave_ld2410.c:324-393).  The loop bounds `(int)frame_len - 15` and
`(int)frame_len - 24` are modelled with truncated `Nat` subtraction,
which matches the C `int` comparison (negative bound means zero
iterations). -/
def mmwave_process_data_frame (d : Dev) (ticks : Nat) : Dev × Int :=
  let payload : Nat → Nat := fun i => d.rxbuf (6 + i)
  let data_type := payload 0
  if data_type ≠ 0x02 ∧ data_type ≠ 0x01 then
    (d, -E_INVAL)
  else if payload 1 ≠ 0xAA then
    (d, -E_INVAL)
  else
    let nd : MmwaveData :=
      { target_state := payload 2
        motion_distance := payload 3 + 256 * payload 4
        motion_energy := payload 5
        static_distance := payload 6 + 256 * payload 7
        static_energy := payload 8
        detection_distance := payload 9 + 256 * payload 10
        timestamp_ms := (ticks * (1000 / TICK_PER_SEC)) % 4294967296 }
    let d1 := { d with data := nd, data_valid := true }
    let d2 :=
      if data_type = 0x01 ∧ d1.eng_mode then
        let mg := copyGates d1.eng_data.motion_gate_energy
                    (fun i => payload (11 + i)) (d1.frame_len - 15)
        let sg := copyGates d1.eng_data.static_gate_energy
                    (fun i => payload (11 + LD2410_MAX_GATES + i))
                    (d1.frame_len - 24)
        { d1 with eng_data := { basic := nd, motion_gate_energy := mg,
                                static_gate_energy := sg } }
      else d1
    (d2, 0)

/-! ## Test frame constructors (tests/helpers/frame_builder.h) -/

/-- `build_data_frame`: standard frame, payload length 11, type 0x02. -/
def build_data_frame (target_state motion_dist motion_energy static_dist
    static_energy detect_dist : Nat) : List Nat :=
  [0xF1, 0xF2, 0xF3, 0xF4,
   11, 0,
   0x02, 0xAA, target_state,
   motion_dist % 256, motion_dist / 256 % 256, motion_energy,
   static_dist % 256, static_dist / 256 % 256, static_energy,
   detect_dist % 256, detect_dist / 256 % 256,
   0xF5, 0xF6, 0xF7, 0xF8]

/-- `build_eng_frame`: engineering frame, payload length 29, type 0x01,
with the two 9-byte gate arrays appended (arrays given as functions on
gate index, copied for indices 0..8 like the C `memcpy` of 9 bytes). -/
def build_eng_frame (target_state motion_dist motion_energy static_dist
    static_energy detect_dist : Nat) (motion_gates static_gates : Nat → Nat) :
    List Nat :=
  [0xF1, 0xF2, 0xF3, 0xF4,
   29, 0,
   0x01, 0xAA, target_state,
   motion_dist % 256, motion_dist / 256 % 256, motion_energy,
   static_dist % 256, static_dist / 256 % 256, static_energy,
   detect_dist % 256, detect_dist / 256 % 256] ++
  (List.range 9).map motion_gates ++
  (List.range 9).map static_gates ++
  [0xF5, 0xF6, 0xF7, 0xF8]

/-- The test harness step of `parse_and_process`
(tests/test_data_extract.c:34-59) that precedes the decoder call:
`memcpy(dev->rxbuf, frame, len)` and
`dev->frame_len = frame[4] | frame[5] << 8`. -/
def stuff_frame (d : Dev) (frame : List Nat) : Dev :=
  { d with
    rxbuf := fun i => if i < frame.length then frame.getD i 0 % 256
                      else d.rxbuf i
    frame_len := frame.getD 4 0 % 256 + 256 * (frame.getD 5 0 % 256) }

/-! ## Command send (mmwave_send_command) -/

/-- Result of the abstracted UART write inside `mmwave_send_command`:
whether `write` returned exactly the frame length. -/
structure SendEnv where
  writeOk : Bool

/-- Shallow embedding of `mmwave_send_command`
(mmwave_ld2410.c:404-478).  The function builds the command frame,
writes it, sleeps 50 ms, and returns; it never reads a response, never
touches `cmd_timeouts`, and never waits on `wait_sem`. -/
def mmwave_send_command (d : Dev) (cmd : Nat) (data : List Nat)
    (env : SendEnv) : Dev × Int × List Nat :=
  let payload_len := (2 + data.length) % 65536
  let frame_len := (4 + 2 + payload_len + 4) % 65536
  let wire := [0xFA, 0xFB, 0xFC, 0xFD,
               payload_len % 256, payload_len / 256 % 256,
               cmd % 256, cmd / 256 % 256] ++
              data.map (fun b => b % 256) ++
              [0x01, 0x02, 0x03, 0x04]
  if frame_len > LD2410_MAX_FRAME_LEN then
    (d, -E_INVAL, [])
  else if env.writeOk then
    (d, 0, wire)
  else
    (d, -E_IOERR, wire)

/-! ## ioctl configuration operations (mmwave_ioctl) -/

/-- The configuration ioctl commands modelled (mmwave_ld2410.h ioctl
codes with their argument structs). -/
inductive Ioc where
  | setSensitivity (gate motion_threshold static_threshold : Nat)
  | setMaxgate (max_motion_gate max_static_gate timeout_s : Nat)
  | engMode (enable : Bool)
  | restart
  | factoryReset
deriving Repr, DecidableEq

/-- Pop the result of the next `mmwave_send_command` call from the
oracle list of send outcomes (missing entries behave as success, 0). -/
def takeRes (rs : List Int) : Int × List Int :=
  match rs with
  | [] => (0, [])
  | r :: t => (r, t)

/-- The 18-byte sensitivity command body (mmwave_ld2410.c:660-688). -/
def sensBody (gate motion_threshold static_threshold : Nat) : List Nat :=
  [0x00, 0x00, gate % 256, 0x00, 0x00, 0x00,
   0x01, 0x00, motion_threshold % 256, 0x00, 0x00, 0x00,
   0x02, 0x00, static_threshold % 256, 0x00, 0x00, 0x00]

/-- The 18-byte max-gate command body (mmwave_ld2410.c:707-729). -/
def maxgateBody (max_motion_gate max_static_gate timeout_s : Nat) :
    List Nat :=
  [0x00, 0x00, max_motion_gate % 256, 0x00, 0x00, 0x00,
   0x01, 0x00, max_static_gate % 256, 0x00, 0x00, 0x00,
   0x02, 0x00, timeout_s % 256, timeout_s / 256 % 256, 0x00, 0x00]

/-- Result of an ioctl call: new device state, the C return value, and
the trace of `(cmd_code, data)` pairs handed to `mmwave_send_command`,
in order. -/
structure IoctlResult where
  dev : Dev
  ret : Int
  sent : List (Nat × List Nat)

/-- Shallow embedding of the configuration cases of `mmwave_ioctl`
(mmwave_ld2410.c:633-788).  The outcome of each successive
`mmwave_send_command` call (which depends on UART I/O) is supplied by
the oracle list `rs`; `mmwave_enter_config` sends `(0x00FF, 01 00)` and
`mmwave_exit_config` sends `(0x00FE, [])` per
mmwave_ld2410.c:488-497. -/
def mmwave_ioctl (d : Dev) (cmd : Ioc) (rs : List Int) : IoctlResult :=
  match cmd with
  | .setSensitivity gate mth sth =>
    if gate ≥ LD2410_MAX_GATES then
      ⟨d, -E_INVAL, []⟩
    else
      let r1 := takeRes rs
      if r1.1 < 0 then
        ⟨d, r1.1, [(0x00FF, [0x01, 0x00])]⟩
      else
        let body := sensBody gate mth sth
        let r2 := takeRes r1.2
        -- mmwave_exit_config is called but its result is discarded
        ⟨d, r2.1, [(0x00FF, [0x01, 0x00]), (0x0064, body), (0x00FE, [])]⟩
  | .setMaxgate mmg msg tmo =>
    let r1 := takeRes rs
    if r1.1 < 0 then
      ⟨d, r1.1, [(0x00FF, [0x01, 0x00])]⟩
    else
      let body := maxgateBody mmg msg tmo
      let r2 := takeRes r1.2
      ⟨d, r2.1, [(0x00FF, [0x01, 0x00]), (0x0060, body), (0x00FE, [])]⟩
  | .engMode enable =>
    let r1 := takeRes rs
    if r1.1 < 0 then
      ⟨d, r1.1, [(0x00FF, [0x01, 0x00])]⟩
    else
      let r2 := takeRes r1.2
      let code := if enable then 0x0062 else 0x0063
      let d2 := if r2.1 = 0 then { d with eng_mode := enable } else d
      ⟨d2, r2.1, [(0x00FF, [0x01, 0x00]), (code, []), (0x00FE, [])]⟩
  | .restart =>
    let r1 := takeRes rs
    if r1.1 < 0 then
      ⟨d, r1.1, [(0x00FF, [0x01, 0x00])]⟩
    else
      let r2 := takeRes r1.2
      ⟨d, r2.1, [(0x00FF, [0x01, 0x00]), (0x00A3, []), (0x00FE, [])]⟩
  | .factoryReset =>
    let r1 := takeRes rs
    if r1.1 < 0 then
      ⟨d, r1.1, [(0x00FF, [0x01, 0x00])]⟩
    else
      let r2 := takeRes r1.2
      ⟨d, r2.1, [(0x00FF, [0x01, 0x00]), (0x00A2, []), (0x00FE, [])]⟩

/-! ## Read path (mmwave_read) -/

/-- Shallow embedding of `mmwave_read` (mmwave_ld2410.c:580-623).
`szData` and `szEng` stand for `sizeof(struct mmwave_data_s)` and
`sizeof(struct mmwave_eng_data_s)` (layout-dependent, but the eng
struct embeds the data struct so `szData ≤ szEng` on any ABI).
Returns `(state, C return value, number of bytes copied out)`. -/
def mmwave_read (d : Dev) (buflen szData szEng : Nat) : Dev × Int × Nat :=
  if d.data_valid = false then
    (d, -E_AGAIN, 0)
  else if d.eng_mode ∧ buflen ≥ szEng then
    (d, (szEng : Int), szEng)
  else if buflen ≥ szData then
    (d, (szData : Int), szData)
  else
    (d, -E_INVAL, 0)

/-! ## Home-Assistant reporter (apps/hactl/hactl_cmd.c) -/

/-- Abstracted network outcome of one `ha_post_state` attempt, covering
each early-exit path of the C function. For `recvd resp`, `resp` is the
byte list returned by the single `recv` (at most 511 bytes in the C). -/
inductive NetResult where
  | socketFail (e : Int)
  | resolveFail
  | connectFail (e : Int)
  | sendShort
  | recvNothing
  | recvd (resp : List Nat)
deriving Repr, DecidableEq

/-- `p` matches at the head of `l`. -/
def bytesLead (p l : List Nat) : Bool :=
  match p, l with
  | [], _ => true
  | _ :: _, [] => false
  | a :: p1, b :: l1 => a = b && bytesLead p1 l1

/-- C `strstr`: `p` occurs somewhere in `l`. -/
def bytesFind (l p : List Nat) : Bool :=
  match l with
  | [] => bytesLead p []
  | _ :: t => bytesLead p l || bytesFind t p

/-- The portion of the received bytes that `strstr` scans: the buffer
holds at most 511 received bytes and is searched up to the first NUL. -/
def scanWindow (resp : List Nat) : List Nat :=
  (resp.take 511).takeWhile (fun b => b ≠ 0)

def bytes200 : List Nat := [0x32, 0x30, 0x30]
def bytes201 : List Nat := [0x32, 0x30, 0x31]

/-- Shallow embedding of `ha_post_state` (hactl_cmd.c:156-273).
`urlSet`/`tokenSet` model the config guard; `net` the socket I/O. -/
def ha_post_state (urlSet tokenSet : Bool) (net : NetResult) : Int :=
  if urlSet = false ∨ tokenSet = false then
    -E_INVAL
  else
    match net with
    | .socketFail e => -e
    | .resolveFail => -E_NOENT
    | .connectFail e => -e
    | .sendShort => -E_IOERR
    | .recvNothing => -E_IOERR
    | .recvd resp =>
      if resp.length > 0 ∧
         (bytesFind (scanWindow resp) bytes200 = true ∨
          bytesFind (scanWindow resp) bytes201 = true) then
        0
      else
        -E_IOERR

/-- One iteration of the `ha_report_task` loop body (hactl_cmd.c:298-321)
after a full-size read: post only on a state change, and update
`prev_state` only when the post succeeded. -/
def ha_report_step (prev : Nat) (dta : MmwaveData) (urlSet tokenSet : Bool)
    (net : NetResult) : Nat :=
  if dta.target_state ≠ prev then
    if ha_post_state urlSet tokenSet net = 0 then dta.target_state else prev
  else
    prev

/-- Modelled from the spec (§4.5 Success): the predicate the claim
states — "the response's status begins with 200 or 201", the status
being the token after the first space of the status line.  Declared
separately from the code embedding so the two can be compared. -/
def spec_status_success (resp : List Nat) : Bool :=
  let afterSpace := ((resp.dropWhile (fun b => b ≠ 0x20)).drop 1)
  bytesLead bytes200 afterSpace || bytesLead bytes201 afterSpace

/-! ## Supporting definitions for the claim proofs -/

/-- Reachability invariant of the parser state: bounds on `rxpos` and
`frame_len` in each state, exactly strong enough to keep every store
inside the 64-byte buffer. -/
def DevInv (d : Dev) : Prop :=
  (d.parse_state = .header → d.rxpos ≤ 3) ∧
  (d.parse_state = .length → 4 ≤ d.rxpos ∧ d.rxpos ≤ 5) ∧
  (d.parse_state = .payload →
     6 ≤ d.rxpos ∧ d.rxpos + 1 ≤ 6 + d.frame_len + 4 ∧ d.frame_len ≤ 54)

/-- On-wire frame shape (spec §4.1): magic, little-endian length,
payload, family terminator. -/
def frameBytes (isCmd : Bool) (payload : List Nat) : List Nat :=
  (if isCmd then [0xFA, 0xFB, 0xFC, 0xFD] else [0xF1, 0xF2, 0xF3, 0xF4]) ++
  [payload.length % 256, payload.length / 256 % 256] ++
  payload ++
  (if isCmd then [0x01, 0x02, 0x03, 0x04] else [0xF5, 0xF6, 0xF7, 0xF8])

/-- Sequential stores of a byte list starting at index `i`. -/
def writeSeq (buf : Nat → Nat) (i : Nat) (bs : List Nat) : Nat → Nat :=
  match bs with
  | [] => buf
  | b :: rest => writeSeq (bufSet buf i b) (i + 1) rest

/-- The shortest byte sequence the parser accepts as a frame: data
magic, length 0, data terminator — 10 bytes. -/
def minFrame : List Nat :=
  [0xF1, 0xF2, 0xF3, 0xF4, 0, 0, 0xF5, 0xF6, 0xF7, 0xF8]

/-- A stray data magic plus a length of 54: leaves the parser
collecting a 54-byte payload that never arrives. -/
def strayHeader : List Nat := [0xF1, 0xF2, 0xF3, 0xF4, 54, 0]

/-- Device with engineering mode enabled, otherwise fresh. -/
def engDevCE : Dev := { initDev with eng_mode := true }

/-- The engineering frame of the repo test
`test_extract_engineering_static_gates`: motion gates 10,20,…,90 and
static gates 5,15,…,85. -/
def engFrameCE : List Nat :=
  build_eng_frame 3 150 80 200 40 150 (fun i => 10 + 10 * i)
    (fun i => 5 + 10 * i)

/-- The bytes of `HTTP/1.1 404 Not Found\r\nContent-Length: 200` — a
failure status line whose header block contains the substring 200. -/
def respCE : List Nat :=
  [0x48, 0x54, 0x54, 0x50, 0x2F, 0x31, 0x2E, 0x31, 0x20, 0x34, 0x30, 0x34,
   0x20, 0x4E, 0x6F, 0x74, 0x20, 0x46, 0x6F, 0x75, 0x6E, 0x64, 0x0D, 0x0A,
   0x43, 0x6F, 0x6E, 0x74, 0x65, 0x6E, 0x74, 0x2D, 0x4C, 0x65, 0x6E, 0x67,
   0x74, 0x68, 0x3A, 0x20, 0x32, 0x30, 0x30]

/-- Well-formed network outcomes: failed calls carry a positive
errno. -/
def NetResult.wf : NetResult → Prop
  | .socketFail e => 0 < e
  | .connectFail e => 0 < e
  | _ => True

/-- Reading back the stored index. -/
lemma bufSet_at (buf : Nat → Nat) (i v : Nat) : bufSet buf i v i = v % 256 := by
  simp [bufSet]

/-- Stores do not affect other indices. -/
lemma bufSet_ne (buf : Nat → Nat) (i v j : Nat) (h : j ≠ i) :
    bufSet buf i v j = buf j := by
  simp [bufSet, h]

/-- Sequential stores do not touch indices below the start. -/
lemma writeSeq_lt (bs : List Nat) (buf : Nat → Nat) (i j : Nat)
    (h : j < i) : writeSeq buf i bs j = buf j := by
  induction bs generalizing buf i with
  | nil => rfl
  | cons b rest ih =>
    simp only [writeSeq]
    rw [ih _ _ (by omega), bufSet_ne _ _ _ _ (by omega)]

/-- Feeding a concatenation: states compose and `Complete` counts
add. -/
lemma feedBytes_append (d : Dev) (a b : List Nat) :
    (feedBytes d (a ++ b)).1 = (feedBytes (feedBytes d a).1 b).1 ∧
    (feedBytes d (a ++ b)).2.1 =
      (feedBytes d a).2.1 + (feedBytes (feedBytes d a).1 b).2.1 := by
  induction a generalizing d with
  | nil => simp [feedBytes]
  | cons x rest ih =>
    simp only [List.cons_append, feedBytes]
    refine ⟨(ih _).1, ?_⟩
    have h2 := (ih (mmwave_parse_byte d x).dev).2
    simp only [List.append_eq] at h2 ⊢
    omega

/-- Feeding payload bytes in `PARSE_PAYLOAD` short of the frame end
just stores them and advances `rxpos`, emitting nothing. -/
lemma feed_payload (pl : List Nat) (d : Dev) (hst : d.parse_state = .payload)
    (hlen : d.rxpos + pl.length + 1 ≤ 6 + d.frame_len + 4) :
    (feedBytes d pl).1 = { d with rxbuf := writeSeq d.rxbuf d.rxpos pl,
                                  rxpos := d.rxpos + pl.length } ∧
    (feedBytes d pl).2.1 = 0 := by
  induction pl generalizing d with
  | nil =>
    refine ⟨?_, rfl⟩
    show d = _
    rfl
  | cons b rest ih =>
    obtain ⟨dta, eng, em, dv, buf, pos, ps, fl, fok, ferr, ct⟩ := d
    simp only at hst hlen
    subst hst
    simp only [feedBytes, mmwave_parse_byte]
    rw [if_neg (by simp only [List.length_cons] at hlen; omega)]
    have hrec := ih
      ⟨dta, eng, em, dv, bufSet buf pos b, pos + 1, .payload, fl, fok, ferr, ct⟩
      rfl (by simp only [List.length_cons] at hlen ⊢; omega)
    simp only at hrec
    refine ⟨?_, by simpa using hrec.2⟩
    rw [hrec.1]
    show _ = ({ rxbuf := writeSeq (bufSet buf pos b) (pos + 1) rest,
                rxpos := pos + (rest.length + 1), .. } : Dev)
    have harith : pos + 1 + rest.length = pos + (rest.length + 1) := by omega
    rw [← harith]

/-- Feeding the four terminator bytes from the end of the payload
phase completes the frame when the stored magic and the terminator
belong to the same family, resetting the parser. -/
lemma feed_tail (dta : MmwaveData) (eng : EngData) (em dv : Bool)
    (buf : Nat → Nat) (fl fok ferr ct : Nat) (t0 t1 t2 t3 : Nat)
    (ht0 : t0 < 256) (ht1 : t1 < 256) (ht2 : t2 < 256) (ht3 : t3 < 256)
    (hok : (word32 buf 0 = LD2410_DATA_HEADER ∧
            t0 + 256 * t1 + 65536 * t2 + 16777216 * t3 = LD2410_DATA_TAIL) ∨
           (word32 buf 0 = LD2410_CMD_HEADER ∧
            t0 + 256 * t1 + 65536 * t2 + 16777216 * t3 = LD2410_CMD_TAIL)) :
    (feedBytes ⟨dta, eng, em, dv, buf, 6 + fl, .payload, fl, fok, ferr, ct⟩
        [t0, t1, t2, t3]).2.1 = 1 ∧
    (feedBytes ⟨dta, eng, em, dv, buf, 6 + fl, .payload, fl, fok, ferr, ct⟩
        [t0, t1, t2, t3]).1.parse_state = .header ∧
    (feedBytes ⟨dta, eng, em, dv, buf, 6 + fl, .payload, fl, fok, ferr, ct⟩
        [t0, t1, t2, t3]).1.rxpos = 0 := by
  have s1 : mmwave_parse_byte
      ⟨dta, eng, em, dv, buf, 6 + fl, .payload, fl, fok, ferr, ct⟩ t0 =
      ⟨⟨dta, eng, em, dv, bufSet buf (6 + fl) t0, 6 + fl + 1, .payload, fl,
        fok, ferr, ct⟩, 0, [6 + fl]⟩ := by
    simp only [mmwave_parse_byte]
    rw [if_neg (by omega)]
  have s2 : mmwave_parse_byte
      ⟨dta, eng, em, dv, bufSet buf (6 + fl) t0, 6 + fl + 1, .payload, fl,
        fok, ferr, ct⟩ t1 =
      ⟨⟨dta, eng, em, dv, bufSet (bufSet buf (6 + fl) t0) (6 + fl + 1) t1,
        6 + fl + 1 + 1, .payload, fl, fok, ferr, ct⟩, 0, [6 + fl + 1]⟩ := by
    simp only [mmwave_parse_byte]
    rw [if_neg (by omega)]
  have s3 : mmwave_parse_byte
      ⟨dta, eng, em, dv, bufSet (bufSet buf (6 + fl) t0) (6 + fl + 1) t1,
        6 + fl + 1 + 1, .payload, fl, fok, ferr, ct⟩ t2 =
      ⟨⟨dta, eng, em, dv,
        bufSet (bufSet (bufSet buf (6 + fl) t0) (6 + fl + 1) t1)
          (6 + fl + 1 + 1) t2,
        6 + fl + 1 + 1 + 1, .payload, fl, fok, ferr, ct⟩, 0,
        [6 + fl + 1 + 1]⟩ := by
    simp only [mmwave_parse_byte]
    rw [if_neg (by omega)]
  have hB0 :
      bufSet (bufSet (bufSet (bufSet buf (6 + fl) t0) (6 + fl + 1) t1)
          (6 + fl + 1 + 1) t2) (6 + fl + 1 + 1 + 1) t3 0 = buf 0 := by
    rw [bufSet_ne _ _ _ _ (by omega), bufSet_ne _ _ _ _ (by omega),
        bufSet_ne _ _ _ _ (by omega), bufSet_ne _ _ _ _ (by omega)]
  have hB1 :
      bufSet (bufSet (bufSet (bufSet buf (6 + fl) t0) (6 + fl + 1) t1)
          (6 + fl + 1 + 1) t2) (6 + fl + 1 + 1 + 1) t3 1 = buf 1 := by
    rw [bufSet_ne _ _ _ _ (by omega), bufSet_ne _ _ _ _ (by omega),
        bufSet_ne _ _ _ _ (by omega), bufSet_ne _ _ _ _ (by omega)]
  have hB2 :
      bufSet (bufSet (bufSet (bufSet buf (6 + fl) t0) (6 + fl + 1) t1)
          (6 + fl + 1 + 1) t2) (6 + fl + 1 + 1 + 1) t3 2 = buf 2 := by
    rw [bufSet_ne _ _ _ _ (by omega), bufSet_ne _ _ _ _ (by omega),
        bufSet_ne _ _ _ _ (by omega), bufSet_ne _ _ _ _ (by omega)]
  have hB3 :
      bufSet (bufSet (bufSet (bufSet buf (6 + fl) t0) (6 + fl + 1) t1)
          (6 + fl + 1 + 1) t2) (6 + fl + 1 + 1 + 1) t3 3 = buf 3 := by
    rw [bufSet_ne _ _ _ _ (by omega), bufSet_ne _ _ _ _ (by omega),
        bufSet_ne _ _ _ _ (by omega), bufSet_ne _ _ _ _ (by omega)]
  have hT0 :
      bufSet (bufSet (bufSet (bufSet buf (6 + fl) t0) (6 + fl + 1) t1)
          (6 + fl + 1 + 1) t2) (6 + fl + 1 + 1 + 1) t3 (6 + fl) = t0 := by
    rw [bufSet_ne _ _ _ _ (by omega), bufSet_ne _ _ _ _ (by omega),
        bufSet_ne _ _ _ _ (by omega), bufSet_at]
    omega
  have hT1 :
      bufSet (bufSet (bufSet (bufSet buf (6 + fl) t0) (6 + fl + 1) t1)
          (6 + fl + 1 + 1) t2) (6 + fl + 1 + 1 + 1) t3 (6 + fl + 1) = t1 := by
    rw [bufSet_ne _ _ _ _ (by omega), bufSet_ne _ _ _ _ (by omega),
        bufSet_at]
    omega
  have hT2 :
      bufSet (bufSet (bufSet (bufSet buf (6 + fl) t0) (6 + fl + 1) t1)
          (6 + fl + 1 + 1) t2) (6 + fl + 1 + 1 + 1) t3 (6 + fl + 1 + 1) =
        t2 := by
    rw [bufSet_ne _ _ _ _ (by omega), bufSet_at]
    omega
  have hT3 :
      bufSet (bufSet (bufSet (bufSet buf (6 + fl) t0) (6 + fl + 1) t1)
          (6 + fl + 1 + 1) t2) (6 + fl + 1 + 1 + 1) t3 (6 + fl + 1 + 1 + 1) =
        t3 := by
    rw [bufSet_at]
    omega
  have hhdr : word32
      (bufSet (bufSet (bufSet (bufSet buf (6 + fl) t0) (6 + fl + 1) t1)
        (6 + fl + 1 + 1) t2) (6 + fl + 1 + 1 + 1) t3) 0 = word32 buf 0 := by
    unfold word32
    simp only [Nat.zero_add]
    rw [hB0, hB1, hB2, hB3]
  have hT2a :
      bufSet (bufSet (bufSet (bufSet buf (6 + fl) t0) (6 + fl + 1) t1)
          (6 + fl + 1 + 1) t2) (6 + fl + 1 + 1 + 1) t3 (6 + fl + 2) = t2 :=
    hT2
  have hT3a :
      bufSet (bufSet (bufSet (bufSet buf (6 + fl) t0) (6 + fl + 1) t1)
          (6 + fl + 1 + 1) t2) (6 + fl + 1 + 1 + 1) t3 (6 + fl + 3) = t3 :=
    hT3
  have htl : word32
      (bufSet (bufSet (bufSet (bufSet buf (6 + fl) t0) (6 + fl + 1) t1)
        (6 + fl + 1 + 1) t2) (6 + fl + 1 + 1 + 1) t3) (6 + fl) =
      t0 + 256 * t1 + 65536 * t2 + 16777216 * t3 := by
    unfold word32
    rw [hT0, hT1, hT2a, hT3a]
  have s4 : mmwave_parse_byte
      ⟨dta, eng, em, dv,
        bufSet (bufSet (bufSet buf (6 + fl) t0) (6 + fl + 1) t1)
          (6 + fl + 1 + 1) t2,
        6 + fl + 1 + 1 + 1, .payload, fl, fok, ferr, ct⟩ t3 =
      ⟨⟨dta, eng, em, dv,
        bufSet (bufSet (bufSet (bufSet buf (6 + fl) t0) (6 + fl + 1) t1)
          (6 + fl + 1 + 1) t2) (6 + fl + 1 + 1 + 1) t3,
        0, .header, fl, fok + 1, ferr, ct⟩, 1, [6 + fl + 1 + 1 + 1]⟩ := by
    simp only [mmwave_parse_byte]
    rw [if_pos (by omega)]
    rcases hok with ⟨hh, ht⟩ | ⟨hh, ht⟩
    · rw [if_pos (Or.inl ⟨by rw [hhdr, hh], by rw [htl, ht]⟩)]
    · rw [if_pos (Or.inr ⟨by rw [hhdr, hh], by rw [htl, ht]⟩)]
  simp only [feedBytes, s1, s2, s3, s4]
  exact ⟨trivial, trivial, trivial⟩

/-- Stores keep the buffer byte-bounded. -/
lemma bufSet_lt_all (buf : Nat → Nat) (i v : Nat) (h : ∀ j, buf j < 256) :
    ∀ j, bufSet buf i v j < 256 := by
  intro j
  unfold bufSet
  split
  · exact Nat.mod_lt _ (by norm_num)
  · exact h j

/-- The header slide keeps the buffer byte-bounded. -/
lemma slideWindow_lt_all (buf : Nat → Nat) (h : ∀ j, buf j < 256) :
    ∀ j, slideWindow buf j < 256 := by
  intro j
  unfold slideWindow
  split
  · exact h (j + 1)
  · exact h j

/-- One parser step keeps every buffer byte below 256. -/
lemma parse_byte_bytes_lt (d : Dev) (b : Nat)
    (h : ∀ j, d.rxbuf j < 256) :
    ∀ j, (mmwave_parse_byte d b).dev.rxbuf j < 256 := by
  cases hps : d.parse_state
  case header =>
    simp only [mmwave_parse_byte, hps]
    split_ifs <;>
      first
        | exact h
        | exact bufSet_lt_all _ _ _ h
        | exact slideWindow_lt_all _ (bufSet_lt_all _ _ _ h)
        | exact slideWindow_lt_all _ h
  case length =>
    simp only [mmwave_parse_byte, hps]
    split_ifs <;> exact bufSet_lt_all _ _ _ h
  case payload =>
    simp only [mmwave_parse_byte, hps]
    split_ifs <;> exact bufSet_lt_all _ _ _ h
  case tail =>
    simp only [mmwave_parse_byte, hps]
    exact h

/-- Feeding any bytes keeps every buffer byte below 256. -/
lemma feedBytes_bytes_lt (bs : List Nat) (d : Dev)
    (h : ∀ j, d.rxbuf j < 256) :
    ∀ j, (feedBytes d bs).1.rxbuf j < 256 := by
  induction bs generalizing d with
  | nil => exact h
  | cons b rest ih =>
    simp only [feedBytes]
    exact ih _ (parse_byte_bytes_lt d b h)

/-- The initial (zeroed) buffer is byte-bounded. -/
lemma initDev_bytes_lt : ∀ j, initDev.rxbuf j < 256 := by
  intro j
  norm_num [initDev]

/-- From any header-hunting state with a reachable window (`rxpos ≤ 3`,
byte-bounded buffer), feeding the four magic bytes of either family
always reaches `PARSE_LENGTH` with the magic stored at indices 0-3 and
nothing emitted: while the first three magic bytes arrive, the newest
window byte is never 0xF4 or 0xFD — the top byte of either magic
word — so no misaligned match can occur, whatever the window held. -/
lemma header_sync (dta : MmwaveData) (eng : EngData) (em dv : Bool)
    (buf : Nat → Nat) (pos : Nat) (fl fok ferr ct : Nat)
    (m0 m1 m2 m3 : Nat)
    (hb : ∀ j, buf j < 256) (hpos : pos ≤ 3)
    (hmagic : (m0 = 0xF1 ∧ m1 = 0xF2 ∧ m2 = 0xF3 ∧ m3 = 0xF4) ∨
              (m0 = 0xFA ∧ m1 = 0xFB ∧ m2 = 0xFC ∧ m3 = 0xFD)) :
    ∃ B : Nat → Nat,
      (feedBytes ⟨dta, eng, em, dv, buf, pos, .header, fl, fok, ferr, ct⟩
          [m0, m1, m2, m3]).1 =
        ⟨dta, eng, em, dv, B, 4, .length, fl, fok, ferr, ct⟩ ∧
      (feedBytes ⟨dta, eng, em, dv, buf, pos, .header, fl, fok, ferr, ct⟩
          [m0, m1, m2, m3]).2.1 = 0 ∧
      B 0 = m0 ∧ B 1 = m1 ∧ B 2 = m2 ∧ B 3 = m3 ∧ (∀ j, B j < 256) := by
  rcases hmagic with ⟨rfl, rfl, rfl, rfl⟩ | ⟨rfl, rfl, rfl, rfl⟩ <;>
    interval_cases pos
  · have s1 : mmwave_parse_byte
        ⟨dta, eng, em, dv, buf, 0, .header, fl, fok, ferr, ct⟩ 0xF1 =
        ⟨⟨dta, eng, em, dv, bufSet (buf) 0 0xF1, 1, .header, fl, fok,
          ferr, ct⟩, 0, [0]⟩ := by
      simp [mmwave_parse_byte]
    have s2 : mmwave_parse_byte
        ⟨dta, eng, em, dv, bufSet buf 0 0xF1, 1, .header, fl, fok, ferr, ct⟩ 0xF2 =
        ⟨⟨dta, eng, em, dv, bufSet (bufSet buf 0 0xF1) 1 0xF2, 2, .header, fl, fok,
          ferr, ct⟩, 0, [1]⟩ := by
      simp [mmwave_parse_byte]
    have s3 : mmwave_parse_byte
        ⟨dta, eng, em, dv, bufSet (bufSet buf 0 0xF1) 1 0xF2, 2, .header, fl, fok, ferr, ct⟩ 0xF3 =
        ⟨⟨dta, eng, em, dv, bufSet (bufSet (bufSet buf 0 0xF1) 1 0xF2) 2 0xF3, 3, .header, fl, fok,
          ferr, ct⟩, 0, [2]⟩ := by
      simp [mmwave_parse_byte]
    have s4 : mmwave_parse_byte
        ⟨dta, eng, em, dv, bufSet (bufSet (bufSet buf 0 0xF1) 1 0xF2) 2 0xF3, 3, .header, fl, fok, ferr, ct⟩ 0xF4 =
        ⟨⟨dta, eng, em, dv, bufSet (bufSet (bufSet (bufSet buf 0 0xF1) 1 0xF2) 2 0xF3) 3 0xF4, 4, .length, fl, fok, ferr,
          ct⟩, 0, [3]⟩ := by
      have hw : word32 (bufSet (bufSet (bufSet (bufSet buf 0 0xF1) 1 0xF2) 2 0xF3) 3 0xF4) 0 = LD2410_DATA_HEADER := by
        unfold word32
        norm_num [bufSet, slideWindow, LD2410_DATA_HEADER]
      simp [mmwave_parse_byte, hw, LD2410_DATA_HEADER]
    refine ⟨bufSet (bufSet (bufSet (bufSet buf 0 0xF1) 1 0xF2) 2 0xF3) 3 0xF4, ?_, ?_, ?_, ?_, ?_, ?_, ?_⟩
    · simp [feedBytes, s1, s2, s3, s4]
    · simp [feedBytes, s1, s2, s3, s4]
    · norm_num [bufSet, slideWindow]
    · norm_num [bufSet, slideWindow]
    · norm_num [bufSet, slideWindow]
    · norm_num [bufSet, slideWindow]
    · exact bufSet_lt_all _ _ _ (bufSet_lt_all _ _ _ (bufSet_lt_all _ _ _ (bufSet_lt_all _ _ _ hb)))

  · have s1 : mmwave_parse_byte
        ⟨dta, eng, em, dv, buf, 1, .header, fl, fok, ferr, ct⟩ 0xF1 =
        ⟨⟨dta, eng, em, dv, bufSet (buf) 1 0xF1, 2, .header, fl, fok,
          ferr, ct⟩, 0, [1]⟩ := by
      simp [mmwave_parse_byte]
    have s2 : mmwave_parse_byte
        ⟨dta, eng, em, dv, bufSet buf 1 0xF1, 2, .header, fl, fok, ferr, ct⟩ 0xF2 =
        ⟨⟨dta, eng, em, dv, bufSet (bufSet buf 1 0xF1) 2 0xF2, 3, .header, fl, fok,
          ferr, ct⟩, 0, [2]⟩ := by
      simp [mmwave_parse_byte]
    have s3 : mmwave_parse_byte
        ⟨dta, eng, em, dv, bufSet (bufSet buf 1 0xF1) 2 0xF2, 3, .header, fl, fok, ferr, ct⟩ 0xF3 =
        ⟨⟨dta, eng, em, dv, slideWindow (bufSet (bufSet (bufSet buf 1 0xF1) 2 0xF2) 3 0xF3), 3, .header, fl,
          fok, ferr, ct⟩, 0, [3, 0, 1, 2]⟩ := by
      have h0 := hb 0
      have h1 := hb 1
      have h2 := hb 2
      have hnm : ¬ (word32 (bufSet (bufSet (bufSet buf 1 0xF1) 2 0xF2) 3 0xF3) 0 = LD2410_DATA_HEADER ∨
          word32 (bufSet (bufSet (bufSet buf 1 0xF1) 2 0xF2) 3 0xF3) 0 = LD2410_CMD_HEADER) := by
        unfold word32
        norm_num [bufSet, slideWindow, LD2410_DATA_HEADER, LD2410_CMD_HEADER]
        omega
      simp [mmwave_parse_byte]
      exact not_or.mp hnm
    have s4 : mmwave_parse_byte
        ⟨dta, eng, em, dv, slideWindow (bufSet (bufSet (bufSet buf 1 0xF1) 2 0xF2) 3 0xF3), 3, .header, fl, fok, ferr, ct⟩ 0xF4 =
        ⟨⟨dta, eng, em, dv, bufSet (slideWindow (bufSet (bufSet (bufSet buf 1 0xF1) 2 0xF2) 3 0xF3)) 3 0xF4, 4, .length, fl, fok, ferr,
          ct⟩, 0, [3]⟩ := by
      have hw : word32 (bufSet (slideWindow (bufSet (bufSet (bufSet buf 1 0xF1) 2 0xF2) 3 0xF3)) 3 0xF4) 0 = LD2410_DATA_HEADER := by
        unfold word32
        norm_num [bufSet, slideWindow, LD2410_DATA_HEADER]
      simp [mmwave_parse_byte, hw, LD2410_DATA_HEADER]
    refine ⟨bufSet (slideWindow (bufSet (bufSet (bufSet buf 1 0xF1) 2 0xF2) 3 0xF3)) 3 0xF4, ?_, ?_, ?_, ?_, ?_, ?_, ?_⟩
    · simp [feedBytes, s1, s2, s3, s4]
    · simp [feedBytes, s1, s2, s3, s4]
    · norm_num [bufSet, slideWindow]
    · norm_num [bufSet, slideWindow]
    · norm_num [bufSet, slideWindow]
    · norm_num [bufSet, slideWindow]
    · exact bufSet_lt_all _ _ _ (slideWindow_lt_all _ (bufSet_lt_all _ _ _ (bufSet_lt_all _ _ _ (bufSet_lt_all _ _ _ hb))))

  · have s1 : mmwave_parse_byte
        ⟨dta, eng, em, dv, buf, 2, .header, fl, fok, ferr, ct⟩ 0xF1 =
        ⟨⟨dta, eng, em, dv, bufSet (buf) 2 0xF1, 3, .header, fl, fok,
          ferr, ct⟩, 0, [2]⟩ := by
      simp [mmwave_parse_byte]
    have s2 : mmwave_parse_byte
        ⟨dta, eng, em, dv, bufSet buf 2 0xF1, 3, .header, fl, fok, ferr, ct⟩ 0xF2 =
        ⟨⟨dta, eng, em, dv, slideWindow (bufSet (bufSet buf 2 0xF1) 3 0xF2), 3, .header, fl,
          fok, ferr, ct⟩, 0, [3, 0, 1, 2]⟩ := by
      have h0 := hb 0
      have h1 := hb 1
      have h2 := hb 2
      have hnm : ¬ (word32 (bufSet (bufSet buf 2 0xF1) 3 0xF2) 0 = LD2410_DATA_HEADER ∨
          word32 (bufSet (bufSet buf 2 0xF1) 3 0xF2) 0 = LD2410_CMD_HEADER) := by
        unfold word32
        norm_num [bufSet, slideWindow, LD2410_DATA_HEADER, LD2410_CMD_HEADER]
        omega
      simp [mmwave_parse_byte]
      exact not_or.mp hnm
    have s3 : mmwave_parse_byte
        ⟨dta, eng, em, dv, slideWindow (bufSet (bufSet buf 2 0xF1) 3 0xF2), 3, .header, fl, fok, ferr, ct⟩ 0xF3 =
        ⟨⟨dta, eng, em, dv, slideWindow (bufSet (slideWindow (bufSet (bufSet buf 2 0xF1) 3 0xF2)) 3 0xF3), 3, .header, fl,
          fok, ferr, ct⟩, 0, [3, 0, 1, 2]⟩ := by
      have h0 := hb 0
      have h1 := hb 1
      have h2 := hb 2
      have hnm : ¬ (word32 (bufSet (slideWindow (bufSet (bufSet buf 2 0xF1) 3 0xF2)) 3 0xF3) 0 = LD2410_DATA_HEADER ∨
          word32 (bufSet (slideWindow (bufSet (bufSet buf 2 0xF1) 3 0xF2)) 3 0xF3) 0 = LD2410_CMD_HEADER) := by
        unfold word32
        norm_num [bufSet, slideWindow, LD2410_DATA_HEADER, LD2410_CMD_HEADER]
        omega
      simp [mmwave_parse_byte]
      exact not_or.mp hnm
    have s4 : mmwave_parse_byte
        ⟨dta, eng, em, dv, slideWindow (bufSet (slideWindow (bufSet (bufSet buf 2 0xF1) 3 0xF2)) 3 0xF3), 3, .header, fl, fok, ferr, ct⟩ 0xF4 =
        ⟨⟨dta, eng, em, dv, bufSet (slideWindow (bufSet (slideWindow (bufSet (bufSet buf 2 0xF1) 3 0xF2)) 3 0xF3)) 3 0xF4, 4, .length, fl, fok, ferr,
          ct⟩, 0, [3]⟩ := by
      have hw : word32 (bufSet (slideWindow (bufSet (slideWindow (bufSet (bufSet buf 2 0xF1) 3 0xF2)) 3 0xF3)) 3 0xF4) 0 = LD2410_DATA_HEADER := by
        unfold word32
        norm_num [bufSet, slideWindow, LD2410_DATA_HEADER]
      simp [mmwave_parse_byte, hw, LD2410_DATA_HEADER]
    refine ⟨bufSet (slideWindow (bufSet (slideWindow (bufSet (bufSet buf 2 0xF1) 3 0xF2)) 3 0xF3)) 3 0xF4, ?_, ?_, ?_, ?_, ?_, ?_, ?_⟩
    · simp [feedBytes, s1, s2, s3, s4]
    · simp [feedBytes, s1, s2, s3, s4]
    · norm_num [bufSet, slideWindow]
    · norm_num [bufSet, slideWindow]
    · norm_num [bufSet, slideWindow]
    · norm_num [bufSet, slideWindow]
    · exact bufSet_lt_all _ _ _ (slideWindow_lt_all _ (bufSet_lt_all _ _ _ (slideWindow_lt_all _ (bufSet_lt_all _ _ _ (bufSet_lt_all _ _ _ hb)))))

  · have s1 : mmwave_parse_byte
        ⟨dta, eng, em, dv, buf, 3, .header, fl, fok, ferr, ct⟩ 0xF1 =
        ⟨⟨dta, eng, em, dv, slideWindow (bufSet (buf) 3 0xF1), 3, .header, fl,
          fok, ferr, ct⟩, 0, [3, 0, 1, 2]⟩ := by
      have h0 := hb 0
      have h1 := hb 1
      have h2 := hb 2
      have hnm : ¬ (word32 (bufSet (buf) 3 0xF1) 0 = LD2410_DATA_HEADER ∨
          word32 (bufSet (buf) 3 0xF1) 0 = LD2410_CMD_HEADER) := by
        unfold word32
        norm_num [bufSet, slideWindow, LD2410_DATA_HEADER, LD2410_CMD_HEADER]
        omega
      simp [mmwave_parse_byte]
      exact not_or.mp hnm
    have s2 : mmwave_parse_byte
        ⟨dta, eng, em, dv, slideWindow (bufSet buf 3 0xF1), 3, .header, fl, fok, ferr, ct⟩ 0xF2 =
        ⟨⟨dta, eng, em, dv, slideWindow (bufSet (slideWindow (bufSet buf 3 0xF1)) 3 0xF2), 3, .header, fl,
          fok, ferr, ct⟩, 0, [3, 0, 1, 2]⟩ := by
      have h0 := hb 0
      have h1 := hb 1
      have h2 := hb 2
      have hnm : ¬ (word32 (bufSet (slideWindow (bufSet buf 3 0xF1)) 3 0xF2) 0 = LD2410_DATA_HEADER ∨
          word32 (bufSet (slideWindow (bufSet buf 3 0xF1)) 3 0xF2) 0 = LD2410_CMD_HEADER) := by
        unfold word32
        norm_num [bufSet, slideWindow, LD2410_DATA_HEADER, LD2410_CMD_HEADER]
        omega
      simp [mmwave_parse_byte]
      exact not_or.mp hnm
    have s3 : mmwave_parse_byte
        ⟨dta, eng, em, dv, slideWindow (bufSet (slideWindow (bufSet buf 3 0xF1)) 3 0xF2), 3, .header, fl, fok, ferr, ct⟩ 0xF3 =
        ⟨⟨dta, eng, em, dv, slideWindow (bufSet (slideWindow (bufSet (slideWindow (bufSet buf 3 0xF1)) 3 0xF2)) 3 0xF3), 3, .header, fl,
          fok, ferr, ct⟩, 0, [3, 0, 1, 2]⟩ := by
      have h0 := hb 0
      have h1 := hb 1
      have h2 := hb 2
      have hnm : ¬ (word32 (bufSet (slideWindow (bufSet (slideWindow (bufSet buf 3 0xF1)) 3 0xF2)) 3 0xF3) 0 = LD2410_DATA_HEADER ∨
          word32 (bufSet (slideWindow (bufSet (slideWindow (bufSet buf 3 0xF1)) 3 0xF2)) 3 0xF3) 0 = LD2410_CMD_HEADER) := by
        unfold word32
        norm_num [bufSet, slideWindow, LD2410_DATA_HEADER, LD2410_CMD_HEADER]
        omega
      simp [mmwave_parse_byte]
      exact not_or.mp hnm
    have s4 : mmwave_parse_byte
        ⟨dta, eng, em, dv, slideWindow (bufSet (slideWindow (bufSet (slideWindow (bufSet buf 3 0xF1)) 3 0xF2)) 3 0xF3), 3, .header, fl, fok, ferr, ct⟩ 0xF4 =
        ⟨⟨dta, eng, em, dv, bufSet (slideWindow (bufSet (slideWindow (bufSet (slideWindow (bufSet buf 3 0xF1)) 3 0xF2)) 3 0xF3)) 3 0xF4, 4, .length, fl, fok, ferr,
          ct⟩, 0, [3]⟩ := by
      have hw : word32 (bufSet (slideWindow (bufSet (slideWindow (bufSet (slideWindow (bufSet buf 3 0xF1)) 3 0xF2)) 3 0xF3)) 3 0xF4) 0 = LD2410_DATA_HEADER := by
        unfold word32
        norm_num [bufSet, slideWindow, LD2410_DATA_HEADER]
      simp [mmwave_parse_byte, hw, LD2410_DATA_HEADER]
    refine ⟨bufSet (slideWindow (bufSet (slideWindow (bufSet (slideWindow (bufSet buf 3 0xF1)) 3 0xF2)) 3 0xF3)) 3 0xF4, ?_, ?_, ?_, ?_, ?_, ?_, ?_⟩
    · simp [feedBytes, s1, s2, s3, s4]
    · simp [feedBytes, s1, s2, s3, s4]
    · norm_num [bufSet, slideWindow]
    · norm_num [bufSet, slideWindow]
    · norm_num [bufSet, slideWindow]
    · norm_num [bufSet, slideWindow]
    · exact bufSet_lt_all _ _ _ (slideWindow_lt_all _ (bufSet_lt_all _ _ _ (slideWindow_lt_all _ (bufSet_lt_all _ _ _ (slideWindow_lt_all _ (bufSet_lt_all _ _ _ hb))))))

  · have s1 : mmwave_parse_byte
        ⟨dta, eng, em, dv, buf, 0, .header, fl, fok, ferr, ct⟩ 0xFA =
        ⟨⟨dta, eng, em, dv, bufSet (buf) 0 0xFA, 1, .header, fl, fok,
          ferr, ct⟩, 0, [0]⟩ := by
      simp [mmwave_parse_byte]
    have s2 : mmwave_parse_byte
        ⟨dta, eng, em, dv, bufSet buf 0 0xFA, 1, .header, fl, fok, ferr, ct⟩ 0xFB =
        ⟨⟨dta, eng, em, dv, bufSet (bufSet buf 0 0xFA) 1 0xFB, 2, .header, fl, fok,
          ferr, ct⟩, 0, [1]⟩ := by
      simp [mmwave_parse_byte]
    have s3 : mmwave_parse_byte
        ⟨dta, eng, em, dv, bufSet (bufSet buf 0 0xFA) 1 0xFB, 2, .header, fl, fok, ferr, ct⟩ 0xFC =
        ⟨⟨dta, eng, em, dv, bufSet (bufSet (bufSet buf 0 0xFA) 1 0xFB) 2 0xFC, 3, .header, fl, fok,
          ferr, ct⟩, 0, [2]⟩ := by
      simp [mmwave_parse_byte]
    have s4 : mmwave_parse_byte
        ⟨dta, eng, em, dv, bufSet (bufSet (bufSet buf 0 0xFA) 1 0xFB) 2 0xFC, 3, .header, fl, fok, ferr, ct⟩ 0xFD =
        ⟨⟨dta, eng, em, dv, bufSet (bufSet (bufSet (bufSet buf 0 0xFA) 1 0xFB) 2 0xFC) 3 0xFD, 4, .length, fl, fok, ferr,
          ct⟩, 0, [3]⟩ := by
      have hw : word32 (bufSet (bufSet (bufSet (bufSet buf 0 0xFA) 1 0xFB) 2 0xFC) 3 0xFD) 0 = LD2410_CMD_HEADER := by
        unfold word32
        norm_num [bufSet, slideWindow, LD2410_CMD_HEADER]
      simp [mmwave_parse_byte, hw, LD2410_CMD_HEADER]
    refine ⟨bufSet (bufSet (bufSet (bufSet buf 0 0xFA) 1 0xFB) 2 0xFC) 3 0xFD, ?_, ?_, ?_, ?_, ?_, ?_, ?_⟩
    · simp [feedBytes, s1, s2, s3, s4]
    · simp [feedBytes, s1, s2, s3, s4]
    · norm_num [bufSet, slideWindow]
    · norm_num [bufSet, slideWindow]
    · norm_num [bufSet, slideWindow]
    · norm_num [bufSet, slideWindow]
    · exact bufSet_lt_all _ _ _ (bufSet_lt_all _ _ _ (bufSet_lt_all _ _ _ (bufSet_lt_all _ _ _ hb)))

  · have s1 : mmwave_parse_byte
        ⟨dta, eng, em, dv, buf, 1, .header, fl, fok, ferr, ct⟩ 0xFA =
        ⟨⟨dta, eng, em, dv, bufSet (buf) 1 0xFA, 2, .header, fl, fok,
          ferr, ct⟩, 0, [1]⟩ := by
      simp [mmwave_parse_byte]
    have s2 : mmwave_parse_byte
        ⟨dta, eng, em, dv, bufSet buf 1 0xFA, 2, .header, fl, fok, ferr, ct⟩ 0xFB =
        ⟨⟨dta, eng, em, dv, bufSet (bufSet buf 1 0xFA) 2 0xFB, 3, .header, fl, fok,
          ferr, ct⟩, 0, [2]⟩ := by
      simp [mmwave_parse_byte]
    have s3 : mmwave_parse_byte
        ⟨dta, eng, em, dv, bufSet (bufSet buf 1 0xFA) 2 0xFB, 3, .header, fl, fok, ferr, ct⟩ 0xFC =
        ⟨⟨dta, eng, em, dv, slideWindow (bufSet (bufSet (bufSet buf 1 0xFA) 2 0xFB) 3 0xFC), 3, .header, fl,
          fok, ferr, ct⟩, 0, [3, 0, 1, 2]⟩ := by
      have h0 := hb 0
      have h1 := hb 1
      have h2 := hb 2
      have hnm : ¬ (word32 (bufSet (bufSet (bufSet buf 1 0xFA) 2 0xFB) 3 0xFC) 0 = LD2410_DATA_HEADER ∨
          word32 (bufSet (bufSet (bufSet buf 1 0xFA) 2 0xFB) 3 0xFC) 0 = LD2410_CMD_HEADER) := by
        unfold word32
        norm_num [bufSet, slideWindow, LD2410_DATA_HEADER, LD2410_CMD_HEADER]
        omega
      simp [mmwave_parse_byte]
      exact not_or.mp hnm
    have s4 : mmwave_parse_byte
        ⟨dta, eng, em, dv, slideWindow (bufSet (bufSet (bufSet buf 1 0xFA) 2 0xFB) 3 0xFC), 3, .header, fl, fok, ferr, ct⟩ 0xFD =
        ⟨⟨dta, eng, em, dv, bufSet (slideWindow (bufSet (bufSet (bufSet buf 1 0xFA) 2 0xFB) 3 0xFC)) 3 0xFD, 4, .length, fl, fok, ferr,
          ct⟩, 0, [3]⟩ := by
      have hw : word32 (bufSet (slideWindow (bufSet (bufSet (bufSet buf 1 0xFA) 2 0xFB) 3 0xFC)) 3 0xFD) 0 = LD2410_CMD_HEADER := by
        unfold word32
        norm_num [bufSet, slideWindow, LD2410_CMD_HEADER]
      simp [mmwave_parse_byte, hw, LD2410_CMD_HEADER]
    refine ⟨bufSet (slideWindow (bufSet (bufSet (bufSet buf 1 0xFA) 2 0xFB) 3 0xFC)) 3 0xFD, ?_, ?_, ?_, ?_, ?_, ?_, ?_⟩
    · simp [feedBytes, s1, s2, s3, s4]
    · simp [feedBytes, s1, s2, s3, s4]
    · norm_num [bufSet, slideWindow]
    · norm_num [bufSet, slideWindow]
    · norm_num [bufSet, slideWindow]
    · norm_num [bufSet, slideWindow]
    · exact bufSet_lt_all _ _ _ (slideWindow_lt_all _ (bufSet_lt_all _ _ _ (bufSet_lt_all _ _ _ (bufSet_lt_all _ _ _ hb))))

  · have s1 : mmwave_parse_byte
        ⟨dta, eng, em, dv, buf, 2, .header, fl, fok, ferr, ct⟩ 0xFA =
        ⟨⟨dta, eng, em, dv, bufSet (buf) 2 0xFA, 3, .header, fl, fok,
          ferr, ct⟩, 0, [2]⟩ := by
      simp [mmwave_parse_byte]
    have s2 : mmwave_parse_byte
        ⟨dta, eng, em, dv, bufSet buf 2 0xFA, 3, .header, fl, fok, ferr, ct⟩ 0xFB =
        ⟨⟨dta, eng, em, dv, slideWindow (bufSet (bufSet buf 2 0xFA) 3 0xFB), 3, .header, fl,
          fok, ferr, ct⟩, 0, [3, 0, 1, 2]⟩ := by
      have h0 := hb 0
      have h1 := hb 1
      have h2 := hb 2
      have hnm : ¬ (word32 (bufSet (bufSet buf 2 0xFA) 3 0xFB) 0 = LD2410_DATA_HEADER ∨
          word32 (bufSet (bufSet buf 2 0xFA) 3 0xFB) 0 = LD2410_CMD_HEADER) := by
        unfold word32
        norm_num [bufSet, slideWindow, LD2410_DATA_HEADER, LD2410_CMD_HEADER]
        omega
      simp [mmwave_parse_byte]
      exact not_or.mp hnm
    have s3 : mmwave_parse_byte
        ⟨dta, eng, em, dv, slideWindow (bufSet (bufSet buf 2 0xFA) 3 0xFB), 3, .header, fl, fok, ferr, ct⟩ 0xFC =
        ⟨⟨dta, eng, em, dv, slideWindow (bufSet (slideWindow (bufSet (bufSet buf 2 0xFA) 3 0xFB)) 3 0xFC), 3, .header, fl,
          fok, ferr, ct⟩, 0, [3, 0, 1, 2]⟩ := by
      have h0 := hb 0
      have h1 := hb 1
      have h2 := hb 2
      have hnm : ¬ (word32 (bufSet (slideWindow (bufSet (bufSet buf 2 0xFA) 3 0xFB)) 3 0xFC) 0 = LD2410_DATA_HEADER ∨
          word32 (bufSet (slideWindow (bufSet (bufSet buf 2 0xFA) 3 0xFB)) 3 0xFC) 0 = LD2410_CMD_HEADER) := by
        unfold word32
        norm_num [bufSet, slideWindow, LD2410_DATA_HEADER, LD2410_CMD_HEADER]
        omega
      simp [mmwave_parse_byte]
      exact not_or.mp hnm
    have s4 : mmwave_parse_byte
        ⟨dta, eng, em, dv, slideWindow (bufSet (slideWindow (bufSet (bufSet buf 2 0xFA) 3 0xFB)) 3 0xFC), 3, .header, fl, fok, ferr, ct⟩ 0xFD =
        ⟨⟨dta, eng, em, dv, bufSet (slideWindow (bufSet (slideWindow (bufSet (bufSet buf 2 0xFA) 3 0xFB)) 3 0xFC)) 3 0xFD, 4, .length, fl, fok, ferr,
          ct⟩, 0, [3]⟩ := by
      have hw : word32 (bufSet (slideWindow (bufSet (slideWindow (bufSet (bufSet buf 2 0xFA) 3 0xFB)) 3 0xFC)) 3 0xFD) 0 = LD2410_CMD_HEADER := by
        unfold word32
        norm_num [bufSet, slideWindow, LD2410_CMD_HEADER]
      simp [mmwave_parse_byte, hw, LD2410_CMD_HEADER]
    refine ⟨bufSet (slideWindow (bufSet (slideWindow (bufSet (bufSet buf 2 0xFA) 3 0xFB)) 3 0xFC)) 3 0xFD, ?_, ?_, ?_, ?_, ?_, ?_, ?_⟩
    · simp [feedBytes, s1, s2, s3, s4]
    · simp [feedBytes, s1, s2, s3, s4]
    · norm_num [bufSet, slideWindow]
    · norm_num [bufSet, slideWindow]
    · norm_num [bufSet, slideWindow]
    · norm_num [bufSet, slideWindow]
    · exact bufSet_lt_all _ _ _ (slideWindow_lt_all _ (bufSet_lt_all _ _ _ (slideWindow_lt_all _ (bufSet_lt_all _ _ _ (bufSet_lt_all _ _ _ hb)))))

  · have s1 : mmwave_parse_byte
        ⟨dta, eng, em, dv, buf, 3, .header, fl, fok, ferr, ct⟩ 0xFA =
        ⟨⟨dta, eng, em, dv, slideWindow (bufSet (buf) 3 0xFA), 3, .header, fl,
          fok, ferr, ct⟩, 0, [3, 0, 1, 2]⟩ := by
      have h0 := hb 0
      have h1 := hb 1
      have h2 := hb 2
      have hnm : ¬ (word32 (bufSet (buf) 3 0xFA) 0 = LD2410_DATA_HEADER ∨
          word32 (bufSet (buf) 3 0xFA) 0 = LD2410_CMD_HEADER) := by
        unfold word32
        norm_num [bufSet, slideWindow, LD2410_DATA_HEADER, LD2410_CMD_HEADER]
        omega
      simp [mmwave_parse_byte]
      exact not_or.mp hnm
    have s2 : mmwave_parse_byte
        ⟨dta, eng, em, dv, slideWindow (bufSet buf 3 0xFA), 3, .header, fl, fok, ferr, ct⟩ 0xFB =
        ⟨⟨dta, eng, em, dv, slideWindow (bufSet (slideWindow (bufSet buf 3 0xFA)) 3 0xFB), 3, .header, fl,
          fok, ferr, ct⟩, 0, [3, 0, 1, 2]⟩ := by
      have h0 := hb 0
      have h1 := hb 1
      have h2 := hb 2
      have hnm : ¬ (word32 (bufSet (slideWindow (bufSet buf 3 0xFA)) 3 0xFB) 0 = LD2410_DATA_HEADER ∨
          word32 (bufSet (slideWindow (bufSet buf 3 0xFA)) 3 0xFB) 0 = LD2410_CMD_HEADER) := by
        unfold word32
        norm_num [bufSet, slideWindow, LD2410_DATA_HEADER, LD2410_CMD_HEADER]
        omega
      simp [mmwave_parse_byte]
      exact not_or.mp hnm
    have s3 : mmwave_parse_byte
        ⟨dta, eng, em, dv, slideWindow (bufSet (slideWindow (bufSet buf 3 0xFA)) 3 0xFB), 3, .header, fl, fok, ferr, ct⟩ 0xFC =
        ⟨⟨dta, eng, em, dv, slideWindow (bufSet (slideWindow (bufSet (slideWindow (bufSet buf 3 0xFA)) 3 0xFB)) 3 0xFC), 3, .header, fl,
          fok, ferr, ct⟩, 0, [3, 0, 1, 2]⟩ := by
      have h0 := hb 0
      have h1 := hb 1
      have h2 := hb 2
      have hnm : ¬ (word32 (bufSet (slideWindow (bufSet (slideWindow (bufSet buf 3 0xFA)) 3 0xFB)) 3 0xFC) 0 = LD2410_DATA_HEADER ∨
          word32 (bufSet (slideWindow (bufSet (slideWindow (bufSet buf 3 0xFA)) 3 0xFB)) 3 0xFC) 0 = LD2410_CMD_HEADER) := by
        unfold word32
        norm_num [bufSet, slideWindow, LD2410_DATA_HEADER, LD2410_CMD_HEADER]
        omega
      simp [mmwave_parse_byte]
      exact not_or.mp hnm
    have s4 : mmwave_parse_byte
        ⟨dta, eng, em, dv, slideWindow (bufSet (slideWindow (bufSet (slideWindow (bufSet buf 3 0xFA)) 3 0xFB)) 3 0xFC), 3, .header, fl, fok, ferr, ct⟩ 0xFD =
        ⟨⟨dta, eng, em, dv, bufSet (slideWindow (bufSet (slideWindow (bufSet (slideWindow (bufSet buf 3 0xFA)) 3 0xFB)) 3 0xFC)) 3 0xFD, 4, .length, fl, fok, ferr,
          ct⟩, 0, [3]⟩ := by
      have hw : word32 (bufSet (slideWindow (bufSet (slideWindow (bufSet (slideWindow (bufSet buf 3 0xFA)) 3 0xFB)) 3 0xFC)) 3 0xFD) 0 = LD2410_CMD_HEADER := by
        unfold word32
        norm_num [bufSet, slideWindow, LD2410_CMD_HEADER]
      simp [mmwave_parse_byte, hw, LD2410_CMD_HEADER]
    refine ⟨bufSet (slideWindow (bufSet (slideWindow (bufSet (slideWindow (bufSet buf 3 0xFA)) 3 0xFB)) 3 0xFC)) 3 0xFD, ?_, ?_, ?_, ?_, ?_, ?_, ?_⟩
    · simp [feedBytes, s1, s2, s3, s4]
    · simp [feedBytes, s1, s2, s3, s4]
    · norm_num [bufSet, slideWindow]
    · norm_num [bufSet, slideWindow]
    · norm_num [bufSet, slideWindow]
    · norm_num [bufSet, slideWindow]
    · exact bufSet_lt_all _ _ _ (slideWindow_lt_all _ (bufSet_lt_all _ _ _ (slideWindow_lt_all _ (bufSet_lt_all _ _ _ (slideWindow_lt_all _ (bufSet_lt_all _ _ _ hb))))))

/-- A whole well-formed frame fed from any reachable header-hunting
state yields exactly one `Complete` event: the sliding window always
locks onto the frame magic regardless of the partial window
contents. -/
lemma frame_complete (d : Dev) (isCmd : Bool) (payload : List Nat)
    (hst : d.parse_state = .header) (hpos : d.rxpos ≤ 3)
    (hb : ∀ j, d.rxbuf j < 256) (hlen : payload.length ≤ 54) :
    (feedBytes d (frameBytes isCmd payload)).2.1 = 1 := by
  obtain ⟨dta, eng, em, dv, buf, pos, ps, fl, fok, ferr, ct⟩ := d
  simp only at hst hpos hb
  subst hst
  have hm : payload.length % 256 = payload.length :=
    Nat.mod_eq_of_lt (by omega)
  have hd : payload.length / 256 % 256 = 0 := by
    rw [Nat.div_eq_of_lt (by omega)]
  have hgt : ¬ (payload.length > LD2410_MAX_FRAME_LEN - 10) := by
    simp only [LD2410_MAX_FRAME_LEN]
    omega
  cases isCmd
  case false =>
    obtain ⟨B, hfs, hfc, hB0, hB1, hB2, hB3, hBlt⟩ :=
      header_sync dta eng em dv buf pos fl fok ferr ct 0xF1 0xF2 0xF3 0xF4
        hb hpos (Or.inl ⟨rfl, rfl, rfl, rfl⟩)
    have hf : frameBytes false payload =
        [0xF1, 0xF2, 0xF3, 0xF4] ++
          (payload.length :: 0 :: (payload ++ [0xF5, 0xF6, 0xF7, 0xF8])) := by
      simp [frameBytes, hm, hd]
    have s5 : mmwave_parse_byte
        ⟨dta, eng, em, dv, B, 4, .length, fl, fok, ferr, ct⟩
          payload.length =
        ⟨⟨dta, eng, em, dv, bufSet B 4 payload.length, 5, .length, fl, fok,
          ferr, ct⟩, 0, [4]⟩ := by
      simp [mmwave_parse_byte]
    have hv4 : bufSet (bufSet B 4 payload.length) 5 0 4 = payload.length := by
      rw [bufSet_ne _ _ _ _ (by omega), bufSet_at]
      exact hm
    have hv5 : bufSet (bufSet B 4 payload.length) 5 0 5 = 0 := by
      rw [bufSet_at]
    have s6 : mmwave_parse_byte
        ⟨dta, eng, em, dv, bufSet B 4 payload.length, 5, .length, fl, fok,
          ferr, ct⟩ 0 =
        ⟨⟨dta, eng, em, dv, bufSet (bufSet B 4 payload.length) 5 0, 6,
          .payload, payload.length, fok, ferr, ct⟩, 0, [5]⟩ := by
      simp [mmwave_parse_byte, hv4, hv5, hgt]
    have hS7 : (feedBytes
        ⟨dta, eng, em, dv, bufSet (bufSet B 4 payload.length) 5 0, 6,
          .payload, payload.length, fok, ferr, ct⟩ payload).1 =
        ⟨dta, eng, em, dv,
          writeSeq (bufSet (bufSet B 4 payload.length) 5 0) 6 payload,
          6 + payload.length, .payload, payload.length, fok, ferr, ct⟩ := by
      rw [(feed_payload payload _ rfl (by simp)).1]
    have hS7c : (feedBytes
        ⟨dta, eng, em, dv, bufSet (bufSet B 4 payload.length) 5 0, 6,
          .payload, payload.length, fok, ferr, ct⟩ payload).2.1 = 0 :=
      (feed_payload payload _ rfl (by simp)).2
    have hw : word32
        (writeSeq (bufSet (bufSet B 4 payload.length) 5 0) 6 payload) 0 =
        LD2410_DATA_HEADER := by
      unfold word32
      simp only [Nat.zero_add]
      rw [writeSeq_lt payload _ 6 0 (by norm_num),
          writeSeq_lt payload _ 6 1 (by norm_num),
          writeSeq_lt payload _ 6 2 (by norm_num),
          writeSeq_lt payload _ 6 3 (by norm_num)]
      norm_num [bufSet]
      rw [hB0, hB1, hB2, hB3]
      norm_num [LD2410_DATA_HEADER]
    have htail := feed_tail dta eng em dv
      (writeSeq (bufSet (bufSet B 4 payload.length) 5 0) 6 payload)
      payload.length fok ferr ct 0xF5 0xF6 0xF7 0xF8
      (by norm_num) (by norm_num) (by norm_num) (by norm_num)
      (Or.inl ⟨hw, by norm_num [LD2410_DATA_TAIL]⟩)
    rw [hf, (feedBytes_append _ _ _).2, hfc, hfs]
    simp only [feedBytes, s5, s6]
    rw [(feedBytes_append _ _ _).2, hS7c, hS7, htail.1]
  case true =>
    obtain ⟨B, hfs, hfc, hB0, hB1, hB2, hB3, hBlt⟩ :=
      header_sync dta eng em dv buf pos fl fok ferr ct 0xFA 0xFB 0xFC 0xFD
        hb hpos (Or.inr ⟨rfl, rfl, rfl, rfl⟩)
    have hf : frameBytes true payload =
        [0xFA, 0xFB, 0xFC, 0xFD] ++
          (payload.length :: 0 :: (payload ++ [0x01, 0x02, 0x03, 0x04])) := by
      simp [frameBytes, hm, hd]
    have s5 : mmwave_parse_byte
        ⟨dta, eng, em, dv, B, 4, .length, fl, fok, ferr, ct⟩
          payload.length =
        ⟨⟨dta, eng, em, dv, bufSet B 4 payload.length, 5, .length, fl, fok,
          ferr, ct⟩, 0, [4]⟩ := by
      simp [mmwave_parse_byte]
    have hv4 : bufSet (bufSet B 4 payload.length) 5 0 4 = payload.length := by
      rw [bufSet_ne _ _ _ _ (by omega), bufSet_at]
      exact hm
    have hv5 : bufSet (bufSet B 4 payload.length) 5 0 5 = 0 := by
      rw [bufSet_at]
    have s6 : mmwave_parse_byte
        ⟨dta, eng, em, dv, bufSet B 4 payload.length, 5, .length, fl, fok,
          ferr, ct⟩ 0 =
        ⟨⟨dta, eng, em, dv, bufSet (bufSet B 4 payload.length) 5 0, 6,
          .payload, payload.length, fok, ferr, ct⟩, 0, [5]⟩ := by
      simp [mmwave_parse_byte, hv4, hv5, hgt]
    have hS7 : (feedBytes
        ⟨dta, eng, em, dv, bufSet (bufSet B 4 payload.length) 5 0, 6,
          .payload, payload.length, fok, ferr, ct⟩ payload).1 =
        ⟨dta, eng, em, dv,
          writeSeq (bufSet (bufSet B 4 payload.length) 5 0) 6 payload,
          6 + payload.length, .payload, payload.length, fok, ferr, ct⟩ := by
      rw [(feed_payload payload _ rfl (by simp)).1]
    have hS7c : (feedBytes
        ⟨dta, eng, em, dv, bufSet (bufSet B 4 payload.length) 5 0, 6,
          .payload, payload.length, fok, ferr, ct⟩ payload).2.1 = 0 :=
      (feed_payload payload _ rfl (by simp)).2
    have hw : word32
        (writeSeq (bufSet (bufSet B 4 payload.length) 5 0) 6 payload) 0 =
        LD2410_CMD_HEADER := by
      unfold word32
      simp only [Nat.zero_add]
      rw [writeSeq_lt payload _ 6 0 (by norm_num),
          writeSeq_lt payload _ 6 1 (by norm_num),
          writeSeq_lt payload _ 6 2 (by norm_num),
          writeSeq_lt payload _ 6 3 (by norm_num)]
      norm_num [bufSet]
      rw [hB0, hB1, hB2, hB3]
      norm_num [LD2410_CMD_HEADER]
    have htail := feed_tail dta eng em dv
      (writeSeq (bufSet (bufSet B 4 payload.length) 5 0) 6 payload)
      payload.length fok ferr ct 0x01 0x02 0x03 0x04
      (by norm_num) (by norm_num) (by norm_num) (by norm_num)
      (Or.inr ⟨hw, by norm_num [LD2410_CMD_TAIL]⟩)
    rw [hf, (feedBytes_append _ _ _).2, hfc, hfs]
    simp only [feedBytes, s5, s6]
    rw [(feedBytes_append _ _ _).2, hS7c, hS7, htail.1]


/-- One parser step preserves the invariant, and every index it stores
to is below 64. -/
lemma parse_byte_inv (d : Dev) (b : Nat) (h : DevInv d) :
    DevInv (mmwave_parse_byte d b).dev ∧
    ((mmwave_parse_byte d b).writes.all fun i => decide (i < 64)) = true := by
  obtain ⟨h1, h2, h3⟩ := h
  cases hps : d.parse_state
  case header =>
    have hr := h1 hps
    simp only [mmwave_parse_byte, hps]
    split_ifs <;>
      simp_all [DevInv] <;> omega
  case length =>
    have hr := h2 hps
    simp only [mmwave_parse_byte, hps]
    split_ifs <;>
      simp_all [DevInv, LD2410_MAX_FRAME_LEN] <;> omega
  case payload =>
    have hr := h3 hps
    simp only [mmwave_parse_byte, hps]
    split_ifs <;>
      simp_all [DevInv] <;> omega
  case tail =>
    simp only [mmwave_parse_byte, hps]
    simp [DevInv]

/-- Feeding any byte list from an invariant state keeps all stores
below index 64. -/
lemma feed_inv (bs : List Nat) (d : Dev) (h : DevInv d) :
    ((feedBytes d bs).2.2.all fun i => decide (i < 64)) = true := by
  induction bs generalizing d with
  | nil => simp [feedBytes]
  | cons b rest ih =>
    have hs := parse_byte_inv d b h
    simp only [feedBytes, List.all_append, Bool.and_eq_true]
    exact ⟨hs.2, ih _ hs.1⟩

/-- Feeding any bytes preserves the parser-state invariant. -/
lemma feedBytes_inv (bs : List Nat) (d : Dev) (h : DevInv d) :
    DevInv (feedBytes d bs).1 := by
  induction bs generalizing d with
  | nil => exact h
  | cons b rest ih =>
    simp only [feedBytes]
    exact ih _ (parse_byte_inv d b h).1

/-- The initial device satisfies the parser-state invariant. -/
lemma initDev_inv : DevInv initDev := by
  refine ⟨fun _ => by norm_num [initDev], fun hc => ?_, fun hc => ?_⟩ <;>
    simp [initDev] at hc


/-- One parser step: ten times the completion flag plus the new `rxpos`
grows by at most one per byte (a `Complete` needs `rxpos` to have
reached at least 9 before the final byte). -/
lemma parse_byte_measure (d : Dev) (b : Nat) :
    10 * (mmwave_parse_byte d b).ret + (mmwave_parse_byte d b).dev.rxpos ≤
      d.rxpos + 1 := by
  cases hps : d.parse_state
  case header =>
    simp only [mmwave_parse_byte, hps]
    split_ifs <;> simp_all <;> omega
  case length =>
    simp only [mmwave_parse_byte, hps]
    split_ifs <;> simp_all <;> omega
  case payload =>
    simp only [mmwave_parse_byte, hps]
    split_ifs <;> simp_all <;> omega
  case tail =>
    simp only [mmwave_parse_byte, hps]
    omega

/-- Accumulated form of the per-step measure bound. -/
lemma feedBytes_measure (d : Dev) (bs : List Nat) :
    10 * (feedBytes d bs).2.1 + (feedBytes d bs).1.rxpos ≤
      d.rxpos + bs.length := by
  induction bs generalizing d with
  | nil => simp [feedBytes]
  | cons b rest ih =>
    have h1 := parse_byte_measure d b
    have h2 := ih (mmwave_parse_byte d b).dev
    simp only [feedBytes, List.length_cons]
    omega

/-! ## Claim theorems -/

/-- C1: for every byte sequence fed one byte at a time from the
initial parser state, every store into the 64-byte `rxbuf` uses an
index strictly below 64 (the length guard bounds any frame at
`6 + len + 4 ≤ 64`). -/
theorem C1_parser_writes_stay_below_64 (bs : List Nat) :
    ((feedBytes initDev bs).2.2.all fun i => decide (i < 64)) = true := by
  refine feed_inv bs initDev ?_
  refine ⟨fun _ => by norm_num [initDev], fun hc => ?_, fun hc => ?_⟩ <;>
    simp [initDev] at hc

/-- C2 (code evaluation): `mmwave_send_command` leaves the device
state — including `cmd_timeouts` — untouched and can never return a
timeout error: after the UART write it returns without waiting for
any response, contradicting the documented 1 s `CmdTimeout` path
(`MMWAVE_CMD_TIMEOUT_MS` and `wait_sem` are declared but unused). -/
theorem C2_send_command_never_waits (d : Dev) (cmd : Nat) (data : List Nat) (env : SendEnv) :
    (mmwave_send_command d cmd data env).1 = d ∧
    (mmwave_send_command d cmd data env).2.1 ≠ -E_TIMEDOUT := by
  unfold mmwave_send_command
  dsimp only
  split_ifs <;> exact ⟨rfl, by norm_num [E_INVAL, E_IOERR, E_TIMEDOUT]⟩

/-- C3: when the decoder rejects a completed data-family frame
(`data_type ∉ {0x01, 0x02}` or head marker ≠ 0xAA) it returns
`-EINVAL` with the device state unchanged: latest reading, `frames_ok`
and `data_valid` all keep their previous values. -/
theorem C3_decoder_rejection_no_mutation (d : Dev) (ticks : Nat)
    (h : (d.rxbuf 6 ≠ 0x02 ∧ d.rxbuf 6 ≠ 0x01) ∨ d.rxbuf 7 ≠ 0xAA) :
    mmwave_process_data_frame d ticks = (d, -E_INVAL) := by
  unfold mmwave_process_data_frame
  rcases h with ⟨h1, h2⟩ | h3
  · rw [if_pos ⟨h1, h2⟩]
  · by_cases hdt : d.rxbuf 6 ≠ 0x02 ∧ d.rxbuf 6 ≠ 0x01
    · rw [if_pos hdt]
    · rw [if_neg hdt, if_pos h3]

/-- C3 witness: concrete rejection (fresh device, payload type 0). -/
theorem C3_rejection_witness :
    mmwave_process_data_frame initDev 0 = (initDev, -E_INVAL) :=
  C3_decoder_rejection_no_mutation initDev 0 (by decide)

/-- C4 (failing evaluation): decoding the frame built by
`build_eng_frame` with static gates 5,15,…,85 accepts the frame and
copies motion gates and static gates 0–4, but leaves static gates 5–8
at their previous values (here 0 instead of 55,65,75,85): the loop
bound `frame_len - 24` stops at 5 of the 9 gates. -/
theorem C4_eng_frame_static_gates_dropped :
    (mmwave_process_data_frame (stuff_frame engDevCE engFrameCE) 0).2 = 0 ∧
    (mmwave_process_data_frame (stuff_frame engDevCE engFrameCE)
       0).1.eng_data.static_gate_energy 4 = 45 ∧
    (mmwave_process_data_frame (stuff_frame engDevCE engFrameCE)
       0).1.eng_data.static_gate_energy 5 = 0 ∧
    (mmwave_process_data_frame (stuff_frame engDevCE engFrameCE)
       0).1.eng_data.motion_gate_energy 8 = 90 := by
  refine ⟨by decide, by decide, by decide, by decide⟩

/-- C5 counterexample: two back-to-back empty-payload frames are 20
bytes and produce 2 `Complete` events, but `⌊20 / 14⌋ = 1 < 2`. -/
theorem C5_fourteen_bound_counterexample :
    (feedBytes initDev (minFrame ++ minFrame)).2.1 = 2 ∧
    (minFrame ++ minFrame).length / 14 < 2 := by
  exact ⟨by decide, by decide⟩

/-- C5 (amended): for every byte stream fed to a fresh parser, the
number of `Complete` events is at most `⌊|S| / 10⌋` (the minimum
accepted frame is 10 bytes: empty payload). -/
theorem C5_complete_events_at_most_tenth (bs : List Nat) :
    (feedBytes initDev bs).2.1 ≤ bs.length / 10 := by
  have h := feedBytes_measure initDev bs
  have h0 : initDev.rxpos = 0 := rfl
  rw [Nat.le_div_iff_mul_le (by norm_num)]
  omega

/-- C6 counterexample: the minimal valid frame alone is emitted, but
after a prefix of a stray data magic with length 54 the same frame is
swallowed as payload and never emitted. -/
theorem C6_prefix_swallows_frame_counterexample :
    (feedBytes initDev minFrame).2.1 = 1 ∧
    (feedBytes initDev (strayHeader ++ minFrame)).2.1 = 0 := by
  exact ⟨by decide, by decide⟩

/-- C6 (amended): inserting arbitrary bytes before a valid frame does
not change that the frame is emitted, provided the prefix leaves the
parser in the header-hunting state (`PARSE_HEADER`, any partial
window contents) — as every garbage prefix that does not fake a frame
magic-plus-length does; feeding the frame then yields exactly one
more `Complete` event. A prefix that leaves the parser mid-frame can
swallow it. -/
theorem C6_frame_emitted_after_syncing_prefix (p : List Nat) (isCmd : Bool) (payload : List Nat)
    (hp : (feedBytes initDev p).1.parse_state = .header)
    (hlen : payload.length ≤ 54) :
    (feedBytes initDev (p ++ frameBytes isCmd payload)).2.1 =
      (feedBytes initDev p).2.1 + 1 := by
  have hinv := feedBytes_inv p initDev initDev_inv
  have hb := feedBytes_bytes_lt p initDev initDev_bytes_lt
  rw [(feedBytes_append initDev p (frameBytes isCmd payload)).2]
  rw [frame_complete _ isCmd payload hp (hinv.1 hp) hb hlen]


/-- C6 witness: the spec scenario-3 garbage `DE AD BE EF 00 11 22 33`
(which leaves the parser hunting with a 3-byte window), then a
1-byte-payload frame. -/
theorem C6_frame_emitted_witness :
    (feedBytes initDev
        ([0xDE, 0xAD, 0xBE, 0xEF, 0x00, 0x11, 0x22, 0x33] ++
          frameBytes false [0x01])).2.1 =
      (feedBytes initDev
        [0xDE, 0xAD, 0xBE, 0xEF, 0x00, 0x11, 0x22, 0x33]).2.1 + 1 :=
  C6_frame_emitted_after_syncing_prefix [0xDE, 0xAD, 0xBE, 0xEF, 0x00, 0x11, 0x22, 0x33] false [0x01]
    (by decide) (by decide)


/-- C7 counterexample: with enter and restart succeeding and
`exit_config` failing with `-EIO`, the ioctl returns 0 (Ok), not the
first error of the three steps. -/
theorem C7_exit_config_error_discarded :
    (mmwave_ioctl initDev .restart [0, 0, -E_IOERR]).ret = 0 ∧
    (mmwave_ioctl initDev .restart [0, 0, -E_IOERR]).sent =
      [(0x00FF, [0x01, 0x00]), (0x00A3, []), (0x00FE, [])] := by
  exact ⟨by decide, by decide⟩

/-- C7 (amended): every configuration operation runs
`enter_config`, then the command, then `exit_config`; it returns the
first error among enter and the command, while `exit_config` is
attempted best-effort and its error is discarded. -/
theorem C7_bracket_returns_enter_or_cmd_error (d : Dev) (r1 r2 r3 : Int) :
    (∀ g m s, g < LD2410_MAX_GATES →
      (mmwave_ioctl d (.setSensitivity g m s) [r1, r2, r3]).ret =
          (if r1 < 0 then r1 else r2) ∧
      (mmwave_ioctl d (.setSensitivity g m s) [r1, r2, r3]).sent =
          (if r1 < 0 then [(0x00FF, [0x01, 0x00])]
           else [(0x00FF, [0x01, 0x00]), (0x0064, sensBody g m s),
                 (0x00FE, [])])) ∧
    (∀ a b c,
      (mmwave_ioctl d (.setMaxgate a b c) [r1, r2, r3]).ret =
          (if r1 < 0 then r1 else r2) ∧
      (mmwave_ioctl d (.setMaxgate a b c) [r1, r2, r3]).sent =
          (if r1 < 0 then [(0x00FF, [0x01, 0x00])]
           else [(0x00FF, [0x01, 0x00]), (0x0060, maxgateBody a b c),
                 (0x00FE, [])])) ∧
    (∀ e : Bool,
      (mmwave_ioctl d (.engMode e) [r1, r2, r3]).ret =
          (if r1 < 0 then r1 else r2) ∧
      (mmwave_ioctl d (.engMode e) [r1, r2, r3]).sent =
          (if r1 < 0 then [(0x00FF, [0x01, 0x00])]
           else [(0x00FF, [0x01, 0x00]),
                 ((if e then 0x0062 else 0x0063), []), (0x00FE, [])])) ∧
    ((mmwave_ioctl d .restart [r1, r2, r3]).ret =
          (if r1 < 0 then r1 else r2) ∧
      (mmwave_ioctl d .restart [r1, r2, r3]).sent =
          (if r1 < 0 then [(0x00FF, [0x01, 0x00])]
           else [(0x00FF, [0x01, 0x00]), (0x00A3, []), (0x00FE, [])])) ∧
    ((mmwave_ioctl d .factoryReset [r1, r2, r3]).ret =
          (if r1 < 0 then r1 else r2) ∧
      (mmwave_ioctl d .factoryReset [r1, r2, r3]).sent =
          (if r1 < 0 then [(0x00FF, [0x01, 0x00])]
           else [(0x00FF, [0x01, 0x00]), (0x00A2, []), (0x00FE, [])])) := by
  refine ⟨?_, ?_, ?_, ?_, ?_⟩
  · intro g m s hg
    have hng : ¬ g ≥ LD2410_MAX_GATES := by omega
    by_cases h : r1 < 0 <;> simp [mmwave_ioctl, takeRes, hng, h]
  · intro a b c
    by_cases h : r1 < 0 <;> simp [mmwave_ioctl, takeRes, h]
  · intro e
    by_cases h : r1 < 0 <;> simp [mmwave_ioctl, takeRes, h]
  · by_cases h : r1 < 0 <;> simp [mmwave_ioctl, takeRes, h]
  · by_cases h : r1 < 0 <;> simp [mmwave_ioctl, takeRes, h]

/-- C7 witness: concrete sensitivity bracket. -/
theorem C7_bracket_witness :
    (mmwave_ioctl initDev (.setSensitivity 3 50 40) [0, 0, -E_IOERR]).ret = 0 ∧
    (mmwave_ioctl initDev (.setSensitivity 3 50 40) [0, 0, -E_IOERR]).sent =
      [(0x00FF, [0x01, 0x00]), (0x0064, sensBody 3 50 40), (0x00FE, [])] := by
  have h := (C7_bracket_returns_enter_or_cmd_error initDev 0 0 (-E_IOERR)).1 3 50 40 (by decide)
  simpa using h

/-- C8 counterexample: a sensitivity request with
`motion_threshold = 200` and a max-gate request with gates 9 both
proceed to send commands and return 0 instead of `-EINVAL`. -/
theorem C8_unvalidated_arguments_counterexample :
    (mmwave_ioctl initDev (.setSensitivity 0 200 0) [0, 0, 0]).ret = 0 ∧
    (mmwave_ioctl initDev (.setSensitivity 0 200 0) [0, 0, 0]).sent ≠ [] ∧
    (mmwave_ioctl initDev (.setMaxgate 9 9 0) [0, 0, 0]).ret = 0 ∧
    (mmwave_ioctl initDev (.setMaxgate 9 9 0) [0, 0, 0]).sent ≠ [] := by
  exact ⟨by decide, by decide, by decide, by decide⟩

/-- C8 (amended): only `set_sensitivity` validates, and only
`gate > 8` (returning `-EINVAL` without sending); thresholds are not
checked and `set_max_gates` performs no argument validation. -/
theorem C8_only_gate_range_validated (d : Dev) (rs : List Int) :
    (∀ g m s, g ≥ LD2410_MAX_GATES →
      mmwave_ioctl d (.setSensitivity g m s) rs = ⟨d, -E_INVAL, []⟩) ∧
    (∀ g m s, g < LD2410_MAX_GATES →
      (mmwave_ioctl d (.setSensitivity g m s) rs).sent ≠ []) ∧
    (∀ a b c, (mmwave_ioctl d (.setMaxgate a b c) rs).sent ≠ []) := by
  refine ⟨?_, ?_, ?_⟩
  · intro g m s hg
    simp [mmwave_ioctl, hg]
  · intro g m s hg
    have hng : ¬ g ≥ LD2410_MAX_GATES := by omega
    by_cases h : (takeRes rs).1 < 0 <;> simp [mmwave_ioctl, hng, h]
  · intro a b c
    by_cases h : (takeRes rs).1 < 0 <;> simp [mmwave_ioctl, h]

/-- C8 witness: gate 9 rejected; others proceed. -/
theorem C8_validation_witness :
    mmwave_ioctl initDev (.setSensitivity 9 0 0) [] =
      ⟨initDev, -E_INVAL, []⟩ ∧
    (mmwave_ioctl initDev (.setSensitivity 0 200 0) []).sent ≠ [] ∧
    (mmwave_ioctl initDev (.setMaxgate 9 9 0) []).sent ≠ [] := by
  refine ⟨(C8_only_gate_range_validated initDev []).1 9 0 0 (by decide),
    (C8_only_gate_range_validated initDev []).2.1 0 200 0 (by decide),
    (C8_only_gate_range_validated initDev []).2.2 9 9 0⟩

/-- C9 counterexample: a `404 Not Found` response whose headers
contain the substring `200` is treated as success by the code, though
its status does not begin with 200 or 201. -/
theorem C9_substring_match_counterexample :
    ha_post_state true true (.recvd respCE) = 0 ∧
    spec_status_success respCE = false := by
  exact ⟨by decide, by decide⟩

/-- C9 (amended): the post succeeds iff a response was received whose
scanned prefix contains the substring `200` or `201` anywhere; on any
other outcome the report step leaves `previous_state` unchanged so the
next tick retries. -/
theorem C9_post_success_iff_substring_and_retry :
    (∀ u t net, NetResult.wf net →
      (ha_post_state u t net = 0 ↔
        (u = true ∧ t = true ∧ ∃ resp, net = .recvd resp ∧
          0 < resp.length ∧
          (bytesFind (scanWindow resp) bytes200 = true ∨
           bytesFind (scanWindow resp) bytes201 = true)))) ∧
    (∀ prev dta u t net, ha_post_state u t net ≠ 0 →
      ha_report_step prev dta u t net = prev) := by
  constructor
  · intro u t net hwf
    cases net with
    | socketFail e =>
        cases u <;> cases t <;>
          simp [ha_post_state, NetResult.wf, E_INVAL] at hwf ⊢ <;> omega
    | resolveFail =>
        cases u <;> cases t <;> simp [ha_post_state, E_INVAL, E_NOENT]
    | connectFail e =>
        cases u <;> cases t <;>
          simp [ha_post_state, NetResult.wf, E_INVAL] at hwf ⊢ <;> omega
    | sendShort =>
        cases u <;> cases t <;> simp [ha_post_state, E_INVAL, E_IOERR]
    | recvNothing =>
        cases u <;> cases t <;> simp [ha_post_state, E_INVAL, E_IOERR]
    | recvd resp =>
        by_cases hc : resp.length > 0 ∧
            (bytesFind (scanWindow resp) bytes200 = true ∨
             bytesFind (scanWindow resp) bytes201 = true) <;>
          cases u <;> cases t <;>
          simp [ha_post_state, E_INVAL, E_IOERR, hc] <;> tauto
  · intro prev dta u t net h
    unfold ha_report_step
    by_cases h1 : dta.target_state ≠ prev
    · rw [if_pos h1, if_neg h]
    · rw [if_neg h1]

/-- C9 witness: a short send is a retryable failure. -/
theorem C9_post_retry_witness :
    (ha_post_state true true .sendShort = 0 ↔
      (True ∧ True ∧ ∃ resp, NetResult.sendShort = .recvd resp ∧
        0 < resp.length ∧
        (bytesFind (scanWindow resp) bytes200 = true ∨
         bytesFind (scanWindow resp) bytes201 = true))) ∧
    ha_report_step 0 ⟨1, 0, 0, 0, 0, 0, 0⟩ true true .sendShort = 0 := by
  constructor
  · have h := C9_post_success_iff_substring_and_retry.1 true true .sendShort trivial
    simpa using h
  · exact C9_post_success_iff_substring_and_retry.2 0 ⟨1, 0, 0, 0, 0, 0, 0⟩ true true .sendShort
      (by norm_num [ha_post_state, E_IOERR])

/-- C10: once `data_valid` holds, a read whose buffer is smaller than
a Reading (and hence too small for the engineering packet) returns
`-EINVAL`, copies nothing, and leaves the device state unchanged. -/
theorem C10_short_buffer_returns_einval (d : Dev) (buflen szData szEng : Nat)
    (hv : d.data_valid = true)
    (h1 : buflen < szData) (h2 : buflen < szEng) :
    mmwave_read d buflen szData szEng = (d, -E_INVAL, 0) := by
  unfold mmwave_read
  rw [if_neg (by simp [hv]), if_neg (fun hc => absurd hc.2 (by omega)),
     if_neg (by omega)]

/-- C10 witness: buffer of 5 bytes against sizes 12 and 32. -/
theorem C10_short_buffer_witness :
    mmwave_read { initDev with data_valid := true } 5 12 32 =
      ({ initDev with data_valid := true }, -E_INVAL, 0) :=
  C10_short_buffer_returns_einval { initDev with data_valid := true } 5 12 32 rfl (by decide)
    (by decide)

end Mmwave
